import Mathlib

/-!
# Verification of the BlueZ-DBus noble bindings

A shallow embedding, in Lean 4, of the core logic of the repository's two
source modules:

* `lib/bluez-dbus/queue.js`    — the `AsyncQueue` promise-based task serializer;
* `lib/bluez-dbus/bindings.js` — the `NobleBindings` object: UUID codec,
  discovery loop, registry, connection lifecycle, GATT cache and the
  read/write/notify operations.

JavaScript strings are modelled as `List Char` (all text handled by the
program is ASCII); JavaScript objects used as string-keyed maps are modelled
as association lists; a field that may be `undefined` is modelled as an
`Option`; code that can throw is modelled in `Except`.  Event emission
(`this.emit(...)`) is modelled by returning the list of events the call emits.
The asynchronous queue is modelled as a state machine whose commands are the
externally observable scheduler steps (an `enqueue` call, the completion of
the currently awaited task action).
-/

set_option autoImplicit false

namespace BluezDbus

/-- JavaScript strings (the program only manipulates ASCII text). -/
abbrev Str := List Char

/-! ## String-keyed objects as association lists

JavaScript objects such as `this._device_by_uuid` are used as mutable maps
from strings to values; `lookupA` models property read (`obj[k]`, giving
`undefined` = `none` when absent) and `insertA` models property assignment
(`obj[k] = v`). -/

/-- Property read `obj[k]`: `none` models `undefined`. -/
def lookupA {α : Type} (k : Str) : List (Str × α) → Option α
  | [] => none
  | (k', v) :: rest => if k = k' then some v else lookupA k rest

/-- Property assignment `obj[k] = v` (overwrite if present, append if not). -/
def insertA {α : Type} (k : Str) (v : α) : List (Str × α) → List (Str × α)
  | [] => [(k, v)]
  | (k', v') :: rest => if k = k' then (k, v) :: rest else (k', v') :: insertA k v rest

/-! ## UUID codec (`packUUID` / `unpackUUID`, bindings.js lines 49–77) -/

/-- `String.prototype.toLowerCase` restricted to one character; for the
Basic Latin range handled by this program it maps `A`–`Z` (code points
65–90) to `a`–`z` by adding 32 and leaves every other character unchanged. -/
def jsToLower (c : Char) : Char :=
  if 65 ≤ c.toNat ∧ c.toNat ≤ 90 then Char.ofNat (c.toNat + 32) else c

/-- `packUUID(uuid)`: remove every hyphen (the global-regex `replace`), then
lowercase. -/
def packUUID (uuid : Str) : Str :=
  (uuid.filter (fun c => c ≠ '-')).map jsToLower

/-- `unpackUUID(uuid)`: when the input has length exactly 32, slice it into
8-4-4-4-12 groups, join the groups with `"-"` and lowercase the result;
otherwise lowercase the input (`uuid.slice(a, b)` is `drop a` then
`take (b - a)`, `parts.join("-")` is `intercalate ['-']`). -/
def unpackUUID (uuid : Str) : Str :=
  if uuid.length = 32 then
    let parts : List Str :=
      [ uuid.take 8,
        (uuid.drop 8).take 4,
        (uuid.drop 12).take 4,
        (uuid.drop 16).take 4,
        (uuid.drop 20).take 12 ]
    (List.intercalate ['-'] parts).map jsToLower
  else
    uuid.map jsToLower

/-- A character is a hexadecimal digit (`0`–`9`, `a`–`f`, `A`–`F`). -/
def isHexDigit (c : Char) : Bool :=
  (48 ≤ c.toNat && c.toNat ≤ 57) || (97 ≤ c.toNat && c.toNat ≤ 102) ||
    (65 ≤ c.toNat && c.toNat ≤ 70)

/-- A valid textual 128-bit UUID: after dropping hyphen separators there are
exactly 32 characters, all hexadecimal digits. -/
def validUUID128 (x : Str) : Bool :=
  (x.filter (fun c => c ≠ '-')).length = 32 &&
    (x.filter (fun c => c ≠ '-')).all isHexDigit

/-- Insert hyphens into a 32-character string in 8-4-4-4-12 grouping.
Specification-side helper. -/
def groupUUID (h : Str) : Str :=
  h.take 8 ++ '-' :: (h.drop 8).take 4 ++ '-' :: (h.drop 12).take 4 ++
    '-' :: (h.drop 16).take 4 ++ '-' :: h.drop 20

/-- The canonical lowercase hyphenated (8-4-4-4-12) form of a valid 128-bit
UUID string, written from the specification's words: take the 32 hex digits
(separators dropped), lowercase them and insert hyphens in 8-4-4-4-12
grouping.  This is the specification-side definition against which the
code's codec is compared. -/
def canonicalUUID (x : Str) : Str :=
  groupUUID ((x.filter (fun c => c ≠ '-')).map jsToLower)

/-- The model's stand-in for the message of a thrown `TypeError`. -/
def typeErrorStr : Str := ('T' :: "ypeError".data)

/-! ## The `AsyncQueue` task serializer (queue.js)

A queue instance holds `_tasks` (the array of pending
`{action, resolve, reject}` records) and the `_pendingPromise` busy flag.
Each task is identified by a `Nat` id and carries the outcome its action
will produce (`true` = the action's promise fulfils, `false` = it rejects);
the pair `(id, outcome)` stands for the `{action, resolve, reject}` record.

Execution is modelled as a state machine.  Ghost fields record the
observable history: `enqueued` lists every task ever passed to `enqueue`
in call order, `settledR` lists, in completion order, every task whose
returned promise has been resolved (`task.resolve`) or rejected
(`task.reject`), paired with its own outcome.  `running` is the task
captured by the active `dequeue` call, i.e. the one whose
`await task.action(this)` is in flight; JavaScript's single-threaded
scheduler means at most one such call is active, which the `Option` and the
preserved `_pendingPromise` guard make explicit. -/

/-- One queued task: its id and the outcome its action will produce. -/
abbrev QTask := Nat × Bool

/-- The state of one `AsyncQueue` instance, plus ghost history fields. -/
structure QueueState where
  /-- `_tasks`: pending tasks, head = next to run. -/
  tasks : List QTask
  /-- `_pendingPromise`: the busy flag. -/
  pendingPromise : Bool
  /-- The task whose `await task.action(this)` is currently in flight. -/
  running : Option QTask
  /-- Ghost: every task passed to `enqueue`, in call order. -/
  enqueued : List QTask
  /-- Ghost: tasks whose promise has settled, in completion order, with the
  outcome (`resolve` vs `reject`) their own action produced. -/
  settledR : List QTask
  deriving DecidableEq, Repr

/-- A fresh `new AsyncQueue()`. -/
def initQueue : QueueState :=
  { tasks := [], pendingPromise := false, running := none,
    enqueued := [], settledR := [] }

/-- The synchronous prefix of `dequeue()` (queue.js lines 25–38): return at
once if `_pendingPromise` is set; shift the next task (return if the array
is empty); set `_pendingPromise` and begin `await task.action(this)`. -/
def dequeue (s : QueueState) : QueueState :=
  if s.pendingPromise then s
  else
    match s.tasks with
    | [] => s
    | t :: rest =>
      { s with tasks := rest, pendingPromise := true, running := some t }

/-- `enqueue(action)` (queue.js lines 18–23): push the
`{action, resolve, reject}` record onto `_tasks`, then call `dequeue()`. -/
def enqueue (s : QueueState) (t : QTask) : QueueState :=
  dequeue { s with tasks := s.tasks ++ [t], enqueued := s.enqueued ++ [t] }

/-- The resumption of `dequeue()` when the awaited `task.action(this)`
settles (queue.js lines 38–47): clear `_pendingPromise` (in the `try` on
fulfilment, in the `catch` on rejection), call `task.resolve(payload)` or
`task.reject(e)` accordingly, and in the `finally` call `dequeue()` again.
With no action in flight there is nothing to resume. -/
def settle (s : QueueState) : QueueState :=
  match s.running with
  | none => s
  | some t =>
    dequeue { s with pendingPromise := false, running := none,
                     settledR := s.settledR ++ [t] }

/-- An observable scheduler step against one queue instance: an `enqueue`
call (made by any code, including a running task's own action), or the
settling of the currently awaited task action. -/
inductive QCmd where
  | enq (t : QTask)
  | settle
  deriving DecidableEq, Repr

/-- Apply one scheduler step. -/
def qStep (s : QueueState) : QCmd → QueueState
  | .enq t => enqueue s t
  | .settle => settle s

/-- Run a sequence of scheduler steps from a fresh queue. -/
def runQueue (cs : List QCmd) : QueueState :=
  cs.foldl qStep initQueue

/-- Let the queue drain: `n` further settle steps with no new enqueues. -/
def settleN (n : Nat) (s : QueueState) : QueueState :=
  match n with
  | 0 => s
  | n + 1 => settleN n (settle s)

/-- The queue invariant: the busy flag is set exactly while a task action is
in flight; the settled history, the in-flight task and the pending tasks
partition the enqueue history in order; and an idle queue has no backlog
(every state-changing entry point ends by calling `dequeue`). -/
def QInv (s : QueueState) : Prop :=
  s.pendingPromise = s.running.isSome ∧
  s.enqueued = s.settledR ++ s.running.toList ++ s.tasks ∧
  (s.pendingPromise = false → s.tasks = [])

/-! ## The `NobleBindings` data model (bindings.js)

`this.emit(name, ...)` calls are modelled by returning the list of events a
step emits. -/

/-- An event emitted on the bindings' event channel. -/
inductive Event where
  | scanStart
  | scanStop
  /-- `discover(uuid, address, addressType, connectable, advertisement, rssi,
  hasGatt)`; `rssi` is always `undefined` (the field is never assigned) and
  `hasGatt` tests the never-assigned `device.gatt`, hence is always
  `false`. -/
  | discover (uuid address addressType : Str) (connectable : Bool) (hasGatt : Bool)
  | connect (deviceUuid : Str)
  | disconnect (deviceUuid : Str)
  | read (deviceUuid serviceUuid characteristicUuid : Str) (data : List Nat)
      (isNotification : Bool)
  | write (deviceUuid serviceUuid characteristicUuid : Str)
  | notify (deviceUuid serviceUuid characteristicUuid : Str) (enabled : Bool)
  deriving DecidableEq, Repr

/-- A characteristic cache entry as built by
`_discoverServiceCharacteristics` (bindings.js lines 465–475): the node-ble
characteristic handle — of which we track the number of `"valuechanged"`
listeners bound by `characteristic.characteristic.on(...)` — and the two
operation queues. -/
structure CharCacheEntry where
  /-- Listeners bound on the handle for the `"valuechanged"` event. -/
  valuechangedListeners : Nat
  readQueue : QueueState
  writeQueue : QueueState
  deriving DecidableEq, Repr

/-- A fresh cache entry as created during characteristic discovery. -/
def newCharCacheEntry : CharCacheEntry :=
  { valuechangedListeners := 0, readQueue := initQueue, writeQueue := initQueue }

/-- A `deviceData` record stored in `this._device_by_uuid` (built by
`_getAdvertisementData`, bindings.js lines 195–251, and mutated by the
connection lifecycle and GATT discovery). -/
structure DeviceEntry where
  /-- `deviceData.uuid` (= `bleDevice.device`, the node-ble path id). -/
  uuid : Str
  address : Str
  addressType : Str
  paired : Bool
  /-- Whether the live node-ble device handle (`deviceData.bleDevice`) is
  retained; the discovery tick deletes it for filtered-out devices. -/
  bleDevice : Bool
  /-- `'connect'` listeners bound on the handle by `connect()`. -/
  connectListeners : Nat
  /-- `'disconnect'` listeners bound on the handle by `connect()`. -/
  disconnectListeners : Nat
  /-- `deviceData.localName`: absent when `getName()` rejected. -/
  localName : Option Str
  /-- `deviceData.serviceUuids` (the raw transport list): absent when
  `getServiceUUIDs()` rejected. -/
  rawServiceUuids : Option (List Str)
  /-- `deviceData.advertisement.serviceUuids`: initialised to `[]` and
  overwritten with the packed raw list when `getServiceUUIDs()` succeeds. -/
  advServiceUuids : List Str
  /-- `deviceData.cachedServices`: keys of the cached GATT service handles. -/
  cachedServices : List Str
  /-- `deviceData.cachedCharacteristics`: `undefined` (= `none`) until
  `onConnect`/`onDisconnect` assign `{}`; maps an unpacked service UUID to
  the service's characteristic cache (unpacked characteristic UUID →
  entry). -/
  cachedCharacteristics : Option (List (Str × List (Str × CharCacheEntry)))
  /-- Whether `deviceData.gattServer` has been assigned. -/
  gattServer : Bool
  deriving DecidableEq, Repr

/-- The mutable state of a `NobleBindings` instance (constructor,
bindings.js lines 82–105). -/
structure NobleState where
  /-- `this._device_by_uuid`, the device registry. -/
  device_by_uuid : List (Str × DeviceEntry)
  /-- `this._serviceUuidFilterList`. -/
  serviceUuidFilterList : List Str
  /-- `this._discoveryProcessId`: the pending discovery timer handle. -/
  discoveryProcessId : Option Nat
  /-- `this._device_by_address`: a property that no code ever initialises or
  reads; `stopScanning` assigns `{}` to it. -/
  device_by_address : Option (List (Str × DeviceEntry))
  deriving DecidableEq, Repr

/-- The answers the transport gives to the per-device queries issued by
`_getAdvertisementData`; a `none` sub-query result models a rejected
promise (its `try { ... } catch (e) { }` block leaves the field unset). -/
structure TransportDeviceInfo where
  /-- `bleDevice.device`. -/
  deviceId : Str
  address : Str
  addressType : Str
  paired : Bool
  /-- `getName()`: `none` = rejected. -/
  name : Option Str
  /-- `getServiceUUIDs()`: `none` = rejected. -/
  serviceUUIDs : Option (List Str)
  deriving DecidableEq, Repr

/-- `_getAdvertisementData` (bindings.js lines 195–251): build the
`deviceData` record from the transport's answers.  `cachedServices` starts
`{}`, `cachedCharacteristics` is not assigned (stays `undefined`),
`advertisement.serviceUuids` starts `[]` and is overwritten with the packed
list only when the `getServiceUUIDs()` sub-query succeeds. -/
def _getAdvertisementData (t : TransportDeviceInfo) : DeviceEntry :=
  { uuid := t.deviceId
    address := t.address
    addressType := t.addressType
    paired := t.paired
    bleDevice := true
    connectListeners := 0
    disconnectListeners := 0
    localName := t.name
    rawServiceUuids := t.serviceUUIDs
    advServiceUuids :=
      match t.serviceUUIDs with
      | none => []
      | some l => l.map packUUID
    cachedServices := []
    cachedCharacteristics := none
    gattServer := false }

/-- `_isAdvertisingWantedCriteria` (bindings.js lines 260–277): empty filter
matches everything; otherwise the loop iterates over the indices of the raw
`device.serviceUuids` array (`for (i in device.serviceUuids)`, hence no
iterations when that field is `undefined`) but tests
`device.advertisement.serviceUuids[i]` — an out-of-range index yields
`undefined`, whose `indexOf` is `-1` — for membership in the filter list. -/
def _isAdvertisingWantedCriteria (filter : List Str) (device : DeviceEntry) : Bool :=
  if filter.length = 0 then
    true
  else
    (List.range (match device.rawServiceUuids with
                 | none => 0
                 | some l => l.length)).any
      (fun i =>
        match device.advServiceUuids[i]? with
        | some u => filter.contains u
        | none => false)

/-- The event emitted for a freshly discovered device (bindings.js line
301): `discover(device.uuid, device.address, device.addressType,
!device.paired, advertisement, rssi, device.gatt !== undefined)`; no code
ever assigns `device.gatt`, so the last argument is `false`. -/
def discoverEvent (device : DeviceEntry) : Event :=
  .discover device.uuid device.address device.addressType (!device.paired) false

/-- The body of one `_getAdvertisementData(address).then(...)` continuation
of the discovery tick (bindings.js lines 295–315), acting on the registry
and the events emitted so far.  `key` is
`this._adapter.constructor.serializeUUID(address)`. -/
def tickContinuation (filter : List Str) (key : Str) (device : DeviceEntry)
    (acc : List (Str × DeviceEntry) × List Event) :
    List (Str × DeviceEntry) × List Event :=
  let (reg, evs) := acc
  if _isAdvertisingWantedCriteria filter device then
    if (lookupA key reg).isNone then
      -- register (line 300), emit `discover` (line 301); the unconditional
      -- registration at line 311 then overwrites the same key
      (insertA key device reg, evs ++ [discoverEvent device])
    else
      (insertA key device reg, evs)
  else
    -- `delete device.bleDevice` (line 307), then register (line 311)
    (insertA key { device with bleDevice := false } reg, evs)

/-- One discovery tick, `_onScanningDurationElapsed` (bindings.js lines
284–327), on the registry.  The synchronous `forEach` first skips every
address whose serialized key is already registered (no continuation can run
while it iterates); each remaining address then gets a
`_getAdvertisementData` continuation, processed here in list order.  `ser`
is the external `Adapter.serializeUUID`; `fetch` gives the transport's
answers for an address, `none` meaning the fetch rejected (the continuation
is skipped and the failure only logged).  Returns the updated registry and
the emitted events; timer re-arming is handled by the caller's state.
`processContinuations` runs the continuations of the listed addresses in
order; `_onScanningDurationElapsed` is the whole tick. -/
def processContinuations (ser : Str → Str) (filter : List Str)
    (fetch : Str → Option TransportDeviceInfo) (l : List Str)
    (acc : List (Str × DeviceEntry) × List Event) :
    List (Str × DeviceEntry) × List Event :=
  l.foldl
    (fun acc a =>
      match fetch a with
      | none => acc
      | some t => tickContinuation filter (ser a) (_getAdvertisementData t) acc)
    acc

/-- One discovery tick (see `processContinuations` above). -/
def _onScanningDurationElapsed (ser : Str → Str) (filter : List Str)
    (fetch : Str → Option TransportDeviceInfo) (addrs : List Str)
    (registry : List (Str × DeviceEntry)) :
    List (Str × DeviceEntry) × List Event :=
  processContinuations ser filter fetch
    (addrs.filter (fun a => (lookupA (ser a) registry).isNone)) (registry, [])

/-! ## `startScanning` option normalization (bindings.js lines 129–143) -/

/-- The possible values of an object's `services` property. -/
inductive ServicesField where
  /-- The property is absent or holds `undefined`. -/
  | undef
  /-- A single UUID string. -/
  | strVal (s : Str)
  /-- An array of UUID strings. -/
  | arrVal (l : List Str)
  deriving DecidableEq, Repr

/-- The JavaScript values the `options` parameter of `startScanning` can
take in the cases the specification describes. -/
inductive ScanOptions where
  /-- The parameter was omitted (`undefined`). -/
  | undef
  /-- A single UUID string. -/
  | strVal (s : Str)
  /-- An array of UUID strings. -/
  | arrVal (l : List Str)
  /-- An object with a `services` property (possibly absent/`undefined`). -/
  | objVal (services : ServicesField)
  /-- `null` (for which `typeof` is `"object"`). -/
  | nullVal
  deriving DecidableEq, Repr

/-- The first two normalization steps of `startScanning`: an array becomes
`{services: options}`; any non-object (`typeof options !== 'object'`,
which holds for strings and for `undefined` but not for `null`) also
becomes `{services: options}`. -/
def coerceToObject : ScanOptions → ScanOptions
  | .arrVal l => .objVal (.arrVal l)
  | .strVal s => .objVal (.strVal s)
  | .undef => .objVal .undef
  | .objVal f => .objVal f
  | .nullVal => .nullVal

/-- The third step: a present non-array `services` value is wrapped in a
one-element array. -/
def wrapServices : ServicesField → ServicesField
  | .strVal s => .arrVal [s]
  | f => f

/-- The option normalization prefix of `startScanning` (bindings.js lines
132–141), up to and including `options.services =
options.services.map((uuid) => packUUID(uuid))`.  Reading `services` off
`null` throws, and calling `.map` on an absent `services` value throws; a
thrown `TypeError` is the `.error` case. -/
def startScanningNormalize (options : ScanOptions) : Except Str (List Str) :=
  match coerceToObject options with
  | .objVal f =>
    match wrapServices f with
    | .arrVal l => .ok (l.map packUUID)
    | .strVal s => .ok [packUUID s]
    | .undef => .error typeErrorStr
  | _ => .error typeErrorStr

/-- `stopScanning` (bindings.js lines 169–187), given the transport's
answers: when `isDiscovering()` answers `true` and `stopDiscovery()`
succeeds, emit `scanStop`, assign `{}` to `this._device_by_address` (the
line commented `// clear cache`; `this._device_by_uuid` is not touched) and
clear the discovery timer.  Otherwise nothing happens (failures are only
logged). -/
def stopScanning (st : NobleState) (discovering stopSucceeds : Bool) :
    NobleState × List Event :=
  if discovering then
    if stopSucceeds then
      ({ st with device_by_address := some [], discoveryProcessId := none },
       [Event.scanStop])
    else (st, [])
  else (st, [])

/-! ## Connection lifecycle (bindings.js lines 335–404) -/

/-- `connect(deviceUuid)` (bindings.js lines 335–351), given the transport's
`isConnected()` answer.  An unknown device is a silent no-op.  Otherwise the
call binds one more `'connect'` and one more `'disconnect'` listener on the
device handle — there is no already-bound guard — and then either emits
`connect` directly (already connected) or issues the connect request, whose
result arrives through the bound listener.  Accessing `.on` on a deleted
`bleDevice` handle throws. -/
def connect (st : NobleState) (deviceUuid : Str) (connectedNow : Bool) :
    Except Str (NobleState × List Event) :=
  match lookupA deviceUuid st.device_by_uuid with
  | none => .ok (st, [])
  | some device =>
    if device.bleDevice then
      let device := { device with
        connectListeners := device.connectListeners + 1,
        disconnectListeners := device.disconnectListeners + 1 }
      let st := { st with device_by_uuid := insertA deviceUuid device st.device_by_uuid }
      if connectedNow then .ok (st, [Event.connect deviceUuid])
      else .ok (st, [])
    else .error typeErrorStr

/-- `onConnect` (bindings.js lines 358–367), the body of each bound
`'connect'` listener: for a known device, reset `cachedServices` and
`cachedCharacteristics` to `{}` and emit `connect`. -/
def onConnect (st : NobleState) (deviceUuid : Str) : NobleState × List Event :=
  match lookupA deviceUuid st.device_by_uuid with
  | none => (st, [])
  | some device =>
    let device := { device with cachedServices := [], cachedCharacteristics := some [] }
    ({ st with device_by_uuid := insertA deviceUuid device st.device_by_uuid },
     [Event.connect deviceUuid])

/-- Run `n` copies of a state-and-events step, concatenating the events. -/
def applyN {σ : Type} (f : σ → σ × List Event) : Nat → σ → σ × List Event
  | 0, s => (s, [])
  | n + 1, s =>
    let (s', evs) := f s
    let (s'', evs') := applyN f n s'
    (s'', evs ++ evs')

/-- The number of `'connect'` listeners currently bound on a device's
transport handle (`0` for an unknown device). -/
def connectListenerCount (st : NobleState) (deviceUuid : Str) : Nat :=
  match lookupA deviceUuid st.device_by_uuid with
  | none => 0
  | some device => device.connectListeners

/-- A `'connect'` event arriving from the transport runs every listener
bound on the handle; each bound listener is `this.onConnect.bind(this)`. -/
def fireTransportConnect (st : NobleState) (deviceUuid : Str) :
    NobleState × List Event :=
  applyN (fun s => onConnect s deviceUuid) (connectListenerCount st deviceUuid) st

/-! ## GATT characteristic access and the read/write/notify operations
(bindings.js lines 519–665) -/

/-- `_getCharacteristic` (bindings.js lines 519–530).  An unknown device
returns `null`.  For a known device the guard

`if (typeof device.cachedCharacteristics[unpackUUID(serviceUuid)] === undefined)`

compares the string returned by `typeof` with the *value* `undefined` and
is therefore never taken; evaluating the indexing itself throws when
`cachedCharacteristics` is `undefined`, and the final double indexing
throws when the service's entry is absent.  `.error` models the thrown
`TypeError`. -/
def _getCharacteristic (st : NobleState)
    (deviceUuid serviceUuid characteristicUuid : Str) :
    Except Str (Option CharCacheEntry) :=
  match lookupA deviceUuid st.device_by_uuid with
  | none => .ok none
  | some device =>
    match device.cachedCharacteristics with
    | none => .error typeErrorStr
    | some byService =>
      match lookupA (unpackUUID serviceUuid) byService with
      | none => .error typeErrorStr
      | some byChar => .ok (lookupA (unpackUUID characteristicUuid) byChar)

/-- The synchronous outcome of a fire-and-forget call. -/
inductive CallResult where
  /-- The call returned without doing anything. -/
  | noop
  /-- A task was placed on the characteristic's queue / a request was
  issued. -/
  | enqueued
  deriving DecidableEq, Repr

/-- The synchronous part of `read` (bindings.js lines 568–586): look the
characteristic up — propagating a thrown `TypeError` — return silently when
it is `null`/`undefined`, else enqueue the read task on the
characteristic's read queue.  No event is emitted synchronously; the
`read` event is emitted by the queued task later. -/
def read (st : NobleState) (deviceUuid serviceUuid characteristicUuid : Str) :
    Except Str CallResult :=
  match _getCharacteristic st deviceUuid serviceUuid characteristicUuid with
  | .error e => .error e
  | .ok none => .ok .noop
  | .ok (some _) => .ok .enqueued

/-- The synchronous part of `write` (bindings.js lines 595–613): same
lookup and guard as `read`, then enqueue the write task on the write
queue. -/
def write (st : NobleState) (deviceUuid serviceUuid characteristicUuid : Str)
    (_data : List Nat) (_withoutResponse : Bool) : Except Str CallResult :=
  match _getCharacteristic st deviceUuid serviceUuid characteristicUuid with
  | .error e => .error e
  | .ok none => .ok .noop
  | .ok (some _) => .ok .enqueued

/-- Replace the cache entry of one characteristic (device id, unpacked
service and characteristic UUID) in the state, leaving everything else
unchanged; used to model mutation of the underlying handle's listener
list. -/
def updateChar (st : NobleState)
    (deviceUuid serviceUuid characteristicUuid : Str)
    (f : CharCacheEntry → CharCacheEntry) : NobleState :=
  match lookupA deviceUuid st.device_by_uuid with
  | none => st
  | some device =>
    match device.cachedCharacteristics with
    | none => st
    | some byService =>
      match lookupA (unpackUUID serviceUuid) byService with
      | none => st
      | some byChar =>
        match lookupA (unpackUUID characteristicUuid) byChar with
        | none => st
        | some entry =>
          { st with
            device_by_uuid :=
              insertA deviceUuid
                ({ device with
                   cachedCharacteristics :=
                     some (insertA (unpackUUID serviceUuid)
                             (insertA (unpackUUID characteristicUuid) (f entry) byChar)
                             byService) })
                st.device_by_uuid }

/-- The synchronous part of `notify` (bindings.js lines 623–652): look the
characteristic up (same guard as `read`).  With `notify = true`, bind one
more `"valuechanged"` listener on the handle — the enable branch contains
no `removeAllListeners` call — and issue `startNotifications()`.  With
`notify = false`, `removeAllListeners("valuechanged")` drops every bound
listener and `stopNotifications()` is issued.  The `notify` event is
emitted asynchronously when the start/stop request succeeds. -/
def notify (st : NobleState) (deviceUuid serviceUuid characteristicUuid : Str)
    (enable : Bool) : Except Str NobleState :=
  match _getCharacteristic st deviceUuid serviceUuid characteristicUuid with
  | .error e => .error e
  | .ok none => .ok st
  | .ok (some _) =>
    if enable then
      .ok (updateChar st deviceUuid serviceUuid characteristicUuid
        (fun e => { e with valuechangedListeners := e.valuechangedListeners + 1 }))
    else
      .ok (updateChar st deviceUuid serviceUuid characteristicUuid
        (fun e => { e with valuechangedListeners := 0 }))

/-- The cache entry of a characteristic, as a pure accessor (no JavaScript
indexing errors): used to observe the model state. -/
def charEntry (st : NobleState)
    (deviceUuid serviceUuid characteristicUuid : Str) : Option CharCacheEntry :=
  match lookupA deviceUuid st.device_by_uuid with
  | none => none
  | some device =>
    match device.cachedCharacteristics with
    | none => none
    | some byService =>
      match lookupA (unpackUUID serviceUuid) byService with
      | none => none
      | some byChar => lookupA (unpackUUID characteristicUuid) byChar

/-- A `"valuechanged"` event arriving on a characteristic's handle runs
every bound listener; each bound listener is
`(e) => this.onNotify(deviceUuid, serviceUuid, characteristicUuid, e)`,
and `onNotify` (bindings.js lines 662–665) emits
`read(deviceUuid, serviceUuid, characteristicUuid, e, true)`. -/
def fireValuechanged (st : NobleState)
    (deviceUuid serviceUuid characteristicUuid : Str) (data : List Nat) :
    List Event :=
  match charEntry st deviceUuid serviceUuid characteristicUuid with
  | none => []
  | some entry =>
    List.replicate entry.valuechangedListeners
      (Event.read deviceUuid serviceUuid characteristicUuid data true)

/-! ## Model-side helpers used to state the claims -/

/-- The number of `'disconnect'` listeners currently bound on a device's
transport handle. -/
def disconnectListenerCount (st : NobleState) (deviceUuid : Str) : Nat :=
  match lookupA deviceUuid st.device_by_uuid with
  | none => 0
  | some device => device.disconnectListeners

/-- The number of `"valuechanged"` listeners currently bound on a
characteristic's handle. -/
def valuechangedListenerCount (st : NobleState)
    (deviceUuid serviceUuid characteristicUuid : Str) : Nat :=
  match charEntry st deviceUuid serviceUuid characteristicUuid with
  | none => 0
  | some e => e.valuechangedListeners

/-- The state after a `connect` call (a thrown error leaves the state as
it was). -/
def connectOk (st : NobleState) (deviceUuid : Str) (connectedNow : Bool) :
    NobleState :=
  match connect st deviceUuid connectedNow with
  | .ok (st', _) => st'
  | .error _ => st

/-- The state after `n` successive `connect` calls. -/
def connectN (n : Nat) (st : NobleState) (deviceUuid : Str) (connectedNow : Bool) :
    NobleState :=
  match n with
  | 0 => st
  | n + 1 => connectN n (connectOk st deviceUuid connectedNow) deviceUuid connectedNow

/-- The state after a `notify` call (a thrown error leaves the state as
it was). -/
def notifyOk (st : NobleState) (deviceUuid serviceUuid characteristicUuid : Str)
    (enable : Bool) : NobleState :=
  match notify st deviceUuid serviceUuid characteristicUuid enable with
  | .ok st' => st'
  | .error _ => st

/-- The registry entry a discovery-tick continuation stores for a device
whose transport answers are `t`: the fetched snapshot, with the live handle
dropped when the device fails the filter. -/
def tickEntry (filter : List Str) (t : TransportDeviceInfo) : DeviceEntry :=
  if _isAdvertisingWantedCriteria filter (_getAdvertisementData t) then
    _getAdvertisementData t
  else
    { _getAdvertisementData t with bleDevice := false }

/-! ## Concrete instances used in witnesses and counterexamples -/

/-- A device as left by discovery, `connect` and a `characteristicsDiscover`
of service `s` exposing characteristic `c`. -/
def exDevice : DeviceEntry :=
  { uuid := ['d'], address := ['0', '1'], addressType := ['p'], paired := false,
    bleDevice := true, connectListeners := 0, disconnectListeners := 0,
    localName := none, rawServiceUuids := none, advServiceUuids := [],
    cachedServices := [],
    cachedCharacteristics := some [(['s'], [(['c'], newCharCacheEntry)])],
    gattServer := false }

/-- A device that was discovered but never connected: its
`cachedCharacteristics` property was never assigned. -/
def exDeviceNeverConnected : DeviceEntry :=
  { exDevice with uuid := ['e'], cachedCharacteristics := none }

/-- A bindings state with the two devices above registered and the
discovery timer armed. -/
def exState : NobleState :=
  { device_by_uuid := [(['d'], exDevice), (['e'], exDeviceNeverConnected)],
    serviceUuidFilterList := [],
    discoveryProcessId := some 1,
    device_by_address := none }

/-- A valid 128-bit UUID string, mixed case, hyphenated. -/
def exUUID : Str := ("0000180F-0000-1000-8000-00805F9B34FB").data

/-- Transport answers for the discovery-tick witness: device `a` advertises
service `x` only, device `b` advertises service `S` (packed `s`), device
`c`'s `getServiceUUIDs()` query fails. -/
def exTransportA : TransportDeviceInfo :=
  { deviceId := ['A'], address := ['a'], addressType := ['p'], paired := false,
    name := none, serviceUUIDs := some [['x']] }

def exTransportB : TransportDeviceInfo :=
  { deviceId := ['B'], address := ['b'], addressType := ['p'], paired := false,
    name := some ['n'], serviceUUIDs := some [['S']] }

def exTransportC : TransportDeviceInfo :=
  { deviceId := ['C'], address := ['c'], addressType := ['p'], paired := false,
    name := none, serviceUUIDs := none }

/-- The tick witness's fetch oracle. -/
def exFetch (a : Str) : TransportDeviceInfo :=
  if a = ['a'] then exTransportA
  else if a = ['b'] then exTransportB
  else exTransportC

/-! # Theorems

## Character and codec lemmas -/

theorem toNat_ofNat_small (n : Nat) (h : n < 55296) : (Char.ofNat n).toNat = n := by
  have hv : Nat.isValidChar n := Or.inl h
  simp only [Char.ofNat, dif_pos hv]
  simp [Char.ofNatAux, Char.toNat, UInt32.toNat]

theorem jsToLower_toNat (c : Char) :
    (jsToLower c).toNat = if 65 ≤ c.toNat ∧ c.toNat ≤ 90 then c.toNat + 32 else c.toNat := by
  unfold jsToLower
  split
  · next h => exact toNat_ofNat_small _ (by omega)
  · rfl

theorem jsToLower_eq_self (c : Char) (h : ¬(65 ≤ c.toNat ∧ c.toNat ≤ 90)) :
    jsToLower c = c := by
  unfold jsToLower
  exact if_neg h

theorem jsToLower_idem (c : Char) : jsToLower (jsToLower c) = jsToLower c := by
  by_cases h : 65 ≤ c.toNat ∧ c.toNat ≤ 90
  · refine jsToLower_eq_self _ ?_
    rw [jsToLower_toNat, if_pos h]
    omega
  · rw [jsToLower_eq_self _ h]
    exact jsToLower_eq_self _ h

theorem jsToLower_hyphen : jsToLower '-' = '-' := by decide

/-- Behaviour of `unpackUUID` as a single equation: the length-32 test
decides everything; on that branch the result is the 8-4-4-4-12 regrouping
of the lowercased input, otherwise the lowercased input itself. -/
theorem unpackUUID_spec (uuid : Str) :
    unpackUUID uuid =
      if uuid.length = 32 then groupUUID (uuid.map jsToLower)
      else uuid.map jsToLower := by
  unfold unpackUUID
  split
  · next h =>
    have htake : (uuid.drop 20).take 12 = uuid.drop 20 := by
      apply List.take_of_length_le
      simp [h]
    simp only [List.intercalate, List.intersperse, List.flatten_cons, List.flatten_nil,
      groupUUID, htake, List.map_append, List.map_take, List.map_drop, List.map_cons,
      List.map_nil, List.append_nil, List.nil_append, List.cons_append, jsToLower_hyphen,
      List.append_assoc]
  · rfl

theorem map_jsToLower_packUUID (x : Str) :
    (packUUID x).map jsToLower = packUUID x := by
  unfold packUUID
  rw [List.map_map]
  exact List.map_congr_left (fun c _ => jsToLower_idem c)

/-! ## Claims C6 and C10: the UUID codec -/

/-- C6: for every valid 128-bit UUID string `x`, in any casing and with or
without hyphen separators, `unpackUUID (packUUID x)` equals the canonical
lowercase hyphenated (8-4-4-4-12) form of `x`. -/
theorem claim_C6_roundtrip (x : Str) (h : validUUID128 x = true) :
    unpackUUID (packUUID x) = canonicalUUID x := by
  have hlen : (packUUID x).length = 32 := by
    simp only [validUUID128, Bool.and_eq_true, decide_eq_true_eq] at h
    simp only [packUUID, List.length_map]
    exact h.1
  rw [unpackUUID_spec, if_pos hlen, map_jsToLower_packUUID]
  rfl

theorem claim_C6_roundtrip_witness :
    validUUID128 exUUID = true ∧ unpackUUID (packUUID exUUID) = canonicalUUID exUUID :=
  ⟨by decide, claim_C6_roundtrip exUUID (by decide)⟩

/-- C10: `unpackUUID` decides by length alone: a length-32 input — whatever
its characters — is regrouped 8-4-4-4-12 with hyphens and lowercased; any
other input is returned lowercased and otherwise unchanged. -/
theorem claim_C10_unpack_length (uuid : Str) :
    unpackUUID uuid =
      if uuid.length = 32 then groupUUID (uuid.map jsToLower)
      else uuid.map jsToLower :=
  unpackUUID_spec uuid

/-! ## Claims C2 and C3: the `AsyncQueue` serializer -/

theorem dequeue_inv (s : QueueState)
    (h1 : s.pendingPromise = s.running.isSome)
    (h2 : s.enqueued = s.settledR ++ s.running.toList ++ s.tasks) :
    QInv (dequeue s) := by
  unfold dequeue QInv
  by_cases hp : s.pendingPromise
  · rw [if_pos hp]
    refine ⟨h1, h2, ?_⟩
    intro h
    rw [h] at hp
    exact absurd hp (by simp)
  · rw [if_neg hp]
    have hrun : s.running = none := by
      cases hr : s.running with
      | none => rfl
      | some t => rw [hr] at h1; simp at h1; exact absurd h1 hp
    cases ht : s.tasks with
    | nil =>
      refine ⟨h1, h2, fun _ => ht⟩
    | cons t rest =>
      refine ⟨by simp, ?_, by simp⟩
      simp only [hrun, Option.toList_none, List.append_nil] at h2
      simp [h2, ht, hrun]

theorem enqueue_inv (s : QueueState) (t : QTask) (h : QInv s) :
    QInv (enqueue s t) := by
  obtain ⟨h1, h2, _⟩ := h
  unfold enqueue
  apply dequeue_inv <;> simp [h1, h2]

theorem settle_inv (s : QueueState) (h : QInv s) : QInv (settle s) := by
  obtain ⟨h1, h2, h3⟩ := h
  unfold settle
  cases hr : s.running with
  | none => exact ⟨h1, h2, h3⟩
  | some t =>
    apply dequeue_inv
    · simp
    · simp only [hr, Option.toList_some] at h2
      simp [h2]

theorem qStep_inv (s : QueueState) (c : QCmd) (h : QInv s) : QInv (qStep s c) := by
  cases c with
  | enq t => exact enqueue_inv s t h
  | settle => exact settle_inv s h

theorem foldl_qStep_inv (cs : List QCmd) (s : QueueState) (h : QInv s) :
    QInv (cs.foldl qStep s) := by
  induction cs generalizing s with
  | nil => exact h
  | cons c cs ih => exact ih _ (qStep_inv s c h)

theorem inv_runQueue (cs : List QCmd) : QInv (runQueue cs) :=
  foldl_qStep_inv cs initQueue ⟨rfl, rfl, fun _ => rfl⟩

/-- C2: for every sequence of scheduler steps against one queue instance,
the busy flag is set exactly while a task action is in flight (so no two
tasks of one queue ever execute simultaneously — `running` is a single
optional slot guarded by the preserved flag); the settled tasks, the
in-flight task and the pending backlog partition the enqueue history in
order, so tasks start and complete strictly in enqueue order; and this
holds for arbitrary interleavings, including `enqueue` steps taken while a
task is running (the enqueue-from-a-continuation case). -/
theorem claim_C2_queue_invariant (cs : List QCmd) :
    (runQueue cs).pendingPromise = (runQueue cs).running.isSome ∧
    (runQueue cs).enqueued =
      (runQueue cs).settledR ++ (runQueue cs).running.toList ++ (runQueue cs).tasks ∧
    ((runQueue cs).settledR ++ (runQueue cs).running.toList) <+: (runQueue cs).enqueued ∧
    (runQueue cs).settledR <+: (runQueue cs).enqueued := by
  obtain ⟨h1, h2, _⟩ := inv_runQueue cs
  refine ⟨h1, h2, ⟨(runQueue cs).tasks, by simp [h2, List.append_assoc]⟩, ?_⟩
  exact ⟨(runQueue cs).running.toList ++ (runQueue cs).tasks, by
    simp [h2, List.append_assoc]⟩

theorem settleN_drain (n : Nat) : ∀ s : QueueState, QInv s → s.tasks.length ≤ n →
    (settleN (n + 1) s).settledR = s.settledR ++ s.running.toList ++ s.tasks ∧
    (settleN (n + 1) s).tasks = [] ∧
    (settleN (n + 1) s).running = none ∧
    (settleN (n + 1) s).pendingPromise = false := by
  induction n with
  | zero =>
    intro s h hlen
    obtain ⟨h1, h2, h3⟩ := h
    have ht : s.tasks = [] := by
      cases hts : s.tasks with
      | nil => rfl
      | cons a l => rw [hts] at hlen; simp at hlen
    show _ ∧ _ ∧ _ ∧ _
    cases hr : s.running with
    | none =>
      have hpf : s.pendingPromise = false := by simp [h1, hr]
      have : settle s = s := by unfold settle; rw [hr]
      simp [settleN, this, ht, hr, hpf]
    | some t =>
      have : settle s =
          { s with pendingPromise := false, running := none,
                   settledR := s.settledR ++ [t] } := by
        unfold settle
        rw [hr]
        unfold dequeue
        simp [ht]
      simp [settleN, this, ht, hr]
  | succ n ih =>
    intro s h hlen
    obtain ⟨h1, h2, h3⟩ := h
    cases hr : s.running with
    | none =>
      have hpf : s.pendingPromise = false := by rw [h1, hr]; rfl
      have ht : s.tasks = [] := h3 hpf
      have hss : settle s = s := by unfold settle; rw [hr]
      have step : settleN (n + 1 + 1) s = settleN (n + 1) s := by
        show settleN (n + 1) (settle s) = settleN (n + 1) s
        rw [hss]
      rw [step]
      have := ih s ⟨h1, h2, h3⟩ (by rw [ht]; simp)
      simpa [hr, ht] using this
    | some t =>
      cases hts : s.tasks with
      | nil =>
        have hset : settle s =
            { s with pendingPromise := false, running := none,
                     settledR := s.settledR ++ [t] } := by
          unfold settle
          rw [hr]
          unfold dequeue
          simp [hts]
        have hinv : QInv (settle s) := by
          rw [hset]
          refine ⟨by simp, ?_, by simp [hts]⟩
          simp only [hr, Option.toList_some] at h2
          simp [h2, hts]
        have := ih (settle s) hinv (by rw [hset]; simp [hts])
        have hstep : settleN (n + 1 + 1) s = settleN (n + 1) (settle s) := rfl
        rw [hstep, hset]
        rw [hset] at this
        simpa [hr, hts] using this
      | cons a rest =>
        have hset : settle s =
            { s with tasks := rest, pendingPromise := true, running := some a,
                     settledR := s.settledR ++ [t] } := by
          unfold settle
          rw [hr]
          unfold dequeue
          simp [hts]
        have hinv : QInv (settle s) := by
          rw [hset]
          refine ⟨by simp, ?_, by simp⟩
          simp only [hr, Option.toList_some] at h2
          simp [h2, hts]
        have hlen' : (settle s).tasks.length ≤ n := by
          rw [hset]
          show rest.length ≤ n
          rw [hts] at hlen
          simp at hlen
          omega
        have := ih (settle s) hinv hlen'
        have hstep : settleN (n + 1 + 1) s = settleN (n + 1) (settle s) := rfl
        rw [hstep, hset]
        rw [hset] at this
        simpa [hr, hts, List.append_assoc] using this

/-- C3: after any history of scheduler steps, letting the queue drain (one
settle step for the in-flight action plus one per backlog entry) settles
*every* enqueued task, each with the outcome of its own action — a task
whose action rejects has only its own promise rejected — and leaves the
busy flag clear, so no failure ever blocks the tasks enqueued after it. -/
theorem claim_C3_failure_isolation (cs : List QCmd) :
    (settleN ((runQueue cs).tasks.length + 1) (runQueue cs)).settledR =
      (runQueue cs).enqueued ∧
    (settleN ((runQueue cs).tasks.length + 1) (runQueue cs)).tasks = [] ∧
    (settleN ((runQueue cs).tasks.length + 1) (runQueue cs)).running = none ∧
    (settleN ((runQueue cs).tasks.length + 1) (runQueue cs)).pendingPromise = false := by
  have h := inv_runQueue cs
  have hd := settleN_drain (runQueue cs).tasks.length (runQueue cs) h (le_refl _)
  obtain ⟨-, h2, -⟩ := h
  rw [← h2] at hd
  exact hd

/-! ## Association-list lemmas -/

theorem lookupA_insertA_self {α : Type} (k : Str) (v : α) (l : List (Str × α)) :
    lookupA k (insertA k v l) = some v := by
  induction l with
  | nil => simp [insertA, lookupA]
  | cons p rest ih =>
    obtain ⟨k', v'⟩ := p
    by_cases h : k = k'
    · simp [insertA, lookupA, h]
    · simp [insertA, lookupA, h, ih]

theorem lookupA_insertA_ne {α : Type} (k k' : Str) (v : α) (l : List (Str × α))
    (h : k ≠ k') : lookupA k (insertA k' v l) = lookupA k l := by
  induction l with
  | nil => simp [insertA, lookupA, h]
  | cons p rest ih =>
    obtain ⟨k'', v''⟩ := p
    by_cases h2 : k' = k''
    · subst h2
      simp [insertA, lookupA, h]
    · by_cases h3 : k = k''
      · simp [insertA, lookupA, h2, h3]
      · simp [insertA, lookupA, h2, h3, ih]

/-! ## Claim C9: `startScanning` option normalization -/

/-- C9 counterexample: with the `options` parameter omitted entirely
(`undefined`), normalization does not default to the empty match-all
filter: `options.services.map(...)` throws a `TypeError`, so
`startScanning` never reaches the `isDiscovering()` transport query.  The
same happens for an object with no `services` field. -/
theorem claim_C9_counterexample :
    startScanningNormalize ScanOptions.undef = Except.error typeErrorStr ∧
    startScanningNormalize (ScanOptions.objVal ServicesField.undef) =
      Except.error typeErrorStr := by
  constructor <;> rfl

/-- C9 as amended: `startScanning` accepts the filter as a single UUID
string, as a list of UUIDs, or as an object carrying either, and in those
cases normalization completes without throwing, yielding the packed filter
list; but an omitted/absent `services` value makes normalization throw, so
there is no default-empty-filter path. -/
theorem claim_C9_amended (s : Str) (l : List Str) :
    startScanningNormalize (ScanOptions.strVal s) = Except.ok [packUUID s] ∧
    startScanningNormalize (ScanOptions.arrVal l) = Except.ok (l.map packUUID) ∧
    startScanningNormalize (ScanOptions.objVal (ServicesField.strVal s)) =
      Except.ok [packUUID s] ∧
    startScanningNormalize (ScanOptions.objVal (ServicesField.arrVal l)) =
      Except.ok (l.map packUUID) ∧
    startScanningNormalize ScanOptions.undef = Except.error typeErrorStr :=
  ⟨rfl, rfl, rfl, rfl, rfl⟩

/-! ## Claim C1: read/write/notify on uncached identifier combinations -/

/-- C1 evaluated at the failing inputs.  An unknown *device* is indeed a
silent no-op, and an uncached *characteristic* under a discovered service
is too; but when the requested *service*'s characteristics were never
discovered, the broken guard in `_getCharacteristic` (its `typeof x ===
undefined` comparison is always false) lets the code index into
`undefined`, and `read`/`write`/`notify` throw a `TypeError` instead of
returning silently — both for a connected device (service key absent from
`cachedCharacteristics = {}`) and for a device never connected
(`cachedCharacteristics` itself `undefined`). -/
theorem claim_C1_fire_and_forget :
    read exState ['x'] ['s'] ['c'] = Except.ok CallResult.noop ∧
    read exState ['d'] ['s'] ['q'] = Except.ok CallResult.noop ∧
    read exState ['d'] ['t'] ['c'] = Except.error typeErrorStr ∧
    read exState ['e'] ['s'] ['c'] = Except.error typeErrorStr ∧
    write exState ['d'] ['t'] ['c'] [] false = Except.error typeErrorStr ∧
    notify exState ['d'] ['t'] ['c'] true = Except.error typeErrorStr :=
  ⟨rfl, rfl, rfl, rfl, rfl, rfl⟩

/-! ## Claim C7: `stopScanning` -/

/-- C7 evaluated at the failing input: with discovery in progress and the
stop request succeeding, `stopScanning` emits `scanStop` and cancels the
discovery timer, but the device registry `_device_by_uuid` — here holding
two devices — is left untouched: the `// clear cache` line assigns `{}` to
the never-read `_device_by_address` property instead. -/
theorem claim_C7_stop_scanning :
    (stopScanning exState true true).2 = [Event.scanStop] ∧
    (stopScanning exState true true).1.discoveryProcessId = none ∧
    (stopScanning exState true true).1.device_by_uuid = exState.device_by_uuid ∧
    exState.device_by_uuid ≠ [] ∧
    (stopScanning exState true true).1.device_by_address = some [] := by
  refine ⟨rfl, rfl, rfl, ?_, rfl⟩
  decide

/-! ## Claim C5: connect/disconnect listener binding -/

theorem connectOk_known (st : NobleState) (d : Str) (dev : DeviceEntry) (now : Bool)
    (h : lookupA d st.device_by_uuid = some dev) (hb : dev.bleDevice = true) :
    connectOk st d now =
      { st with
        device_by_uuid :=
          insertA d
            ({ dev with
               connectListeners := dev.connectListeners + 1,
               disconnectListeners := dev.disconnectListeners + 1 })
            st.device_by_uuid } := by
  unfold connectOk connect
  rw [h]
  simp only [hb, if_true]
  cases now <;> rfl

theorem onConnect_snd (st : NobleState) (d : Str) (dev : DeviceEntry)
    (hdev : lookupA d st.device_by_uuid = some dev) :
    (onConnect st d).2 = [Event.connect d] := by
  unfold onConnect
  rw [hdev]

theorem onConnect_fst_lookup (st : NobleState) (d : Str) (dev : DeviceEntry)
    (hdev : lookupA d st.device_by_uuid = some dev) :
    lookupA d ((onConnect st d).1).device_by_uuid =
      some ({ dev with cachedServices := [], cachedCharacteristics := some [] }) := by
  unfold onConnect
  rw [hdev]
  exact lookupA_insertA_self d _ _

theorem applyN_onConnect_events (d : Str) (m : Nat) : ∀ st : NobleState,
    (lookupA d st.device_by_uuid).isSome = true →
    (applyN (fun s => onConnect s d) m st).2 = List.replicate m (Event.connect d) := by
  induction m with
  | zero => intro st _; rfl
  | succ m ih =>
    intro st h
    obtain ⟨dev, hdev⟩ := Option.isSome_iff_exists.mp h
    show (onConnect st d).2 ++ (applyN (fun s => onConnect s d) m (onConnect st d).1).2 = _
    rw [onConnect_snd st d dev hdev,
      ih ((onConnect st d).1) (by rw [onConnect_fst_lookup st d dev hdev]; rfl)]
    rfl

theorem fireTransportConnect_events (st : NobleState) (d : Str)
    (h : (lookupA d st.device_by_uuid).isSome = true) :
    (fireTransportConnect st d).2 =
      List.replicate (connectListenerCount st d) (Event.connect d) :=
  applyN_onConnect_events d (connectListenerCount st d) st h

/-- C5 counterexample: two `connect` calls on the same known device leave
two `'connect'` (and two `'disconnect'`) listeners bound on its transport
handle — `connect` re-binds them on every call — so a single transport
`'connect'` event emits the `connect` event twice, refuting "at most one
listener / exactly one emitted event". -/
theorem claim_C5_counterexample :
    connectListenerCount (connectOk (connectOk exState ['d'] false) ['d'] false) ['d'] = 2 ∧
    disconnectListenerCount (connectOk (connectOk exState ['d'] false) ['d'] false) ['d'] = 2 ∧
    ¬connectListenerCount (connectOk (connectOk exState ['d'] false) ['d'] false) ['d'] ≤ 1 ∧
    (fireTransportConnect (connectOk (connectOk exState ['d'] false) ['d'] false) ['d']).2 =
      [Event.connect ['d'], Event.connect ['d']] := by
  refine ⟨rfl, rfl, by decide, rfl⟩

/-- C5 as amended: every `connect(deviceUuid)` call on a known device whose
handle is retained binds one *additional* `'connect'` and `'disconnect'`
listener — there is no exactly-once guard — so after `n` calls the handle
carries the initial count plus `n` of each, and a single transport
`'connect'` event emits one `connect` event per bound listener. -/
theorem claim_C5_amended (st : NobleState) (d : Str) (dev : DeviceEntry)
    (now : Bool) (n : Nat)
    (h : lookupA d st.device_by_uuid = some dev) (hb : dev.bleDevice = true) :
    connectListenerCount (connectN n st d now) d = dev.connectListeners + n ∧
    disconnectListenerCount (connectN n st d now) d = dev.disconnectListeners + n ∧
    (fireTransportConnect (connectN n st d now) d).2 =
      List.replicate (dev.connectListeners + n) (Event.connect d) := by
  have key : ∀ (m : Nat) (st' : NobleState) (dev' : DeviceEntry),
      lookupA d st'.device_by_uuid = some dev' → dev'.bleDevice = true →
      ∃ dev'' : DeviceEntry,
        lookupA d (connectN m st' d now).device_by_uuid = some dev'' ∧
        dev''.connectListeners = dev'.connectListeners + m ∧
        dev''.disconnectListeners = dev'.disconnectListeners + m := by
    intro m
    induction m with
    | zero =>
      intro st' dev' h' _
      exact ⟨dev', h', by omega, by omega⟩
    | succ m ih =>
      intro st' dev' h' hb'
      have hlook : lookupA d (connectOk st' d now).device_by_uuid =
          some ({ dev' with
                  connectListeners := dev'.connectListeners + 1,
                  disconnectListeners := dev'.disconnectListeners + 1 }) := by
        rw [connectOk_known st' d dev' now h' hb']
        exact lookupA_insertA_self d _ _
      obtain ⟨dev'', h2, h3, h4⟩ := ih (connectOk st' d now) _ hlook hb'
      exact ⟨dev'', h2, by simp at h3; omega, by simp at h4; omega⟩
  obtain ⟨dev'', hk, hc, hd⟩ := key n st dev h hb
  have hcount : connectListenerCount (connectN n st d now) d = dev.connectListeners + n := by
    unfold connectListenerCount
    rw [hk]
    exact hc
  refine ⟨hcount, ?_, ?_⟩
  · unfold disconnectListenerCount
    rw [hk]
    exact hd
  · rw [fireTransportConnect_events _ _ (by rw [hk]; rfl), hcount]

theorem claim_C5_amended_witness :
    lookupA ['d'] exState.device_by_uuid = some exDevice ∧
    exDevice.bleDevice = true ∧
    connectListenerCount (connectN 2 exState ['d'] false) ['d'] =
      exDevice.connectListeners + 2 ∧
    disconnectListenerCount (connectN 2 exState ['d'] false) ['d'] =
      exDevice.disconnectListeners + 2 ∧
    (fireTransportConnect (connectN 2 exState ['d'] false) ['d']).2 =
      List.replicate (exDevice.connectListeners + 2) (Event.connect ['d']) := by
  have h := claim_C5_amended exState ['d'] exDevice false 2 (by decide) (by decide)
  exact ⟨by decide, by decide, h.1, h.2.1, h.2.2⟩

/-! ## Claim C4: `notify(true)` listener management -/

theorem getCharacteristic_of_charEntry (st : NobleState) (d s c : Str)
    (e : CharCacheEntry) (h : charEntry st d s c = some e) :
    _getCharacteristic st d s c = Except.ok (some e) := by
  unfold charEntry at h
  unfold _getCharacteristic
  cases h1 : lookupA d st.device_by_uuid with
  | none => simp [h1] at h
  | some dev =>
    simp only [h1] at h
    cases h2 : dev.cachedCharacteristics with
    | none => simp [h2] at h
    | some bysvc =>
      simp only [h2] at h
      cases h3 : lookupA (unpackUUID s) bysvc with
      | none => simp [h3] at h
      | some bychar =>
        simp only [h3] at h
        simp only [h1, h2, h3, h]

theorem charEntry_updateChar (st : NobleState) (d s c : Str)
    (f : CharCacheEntry → CharCacheEntry) (e : CharCacheEntry)
    (h : charEntry st d s c = some e) :
    charEntry (updateChar st d s c f) d s c = some (f e) := by
  unfold charEntry at h
  cases h1 : lookupA d st.device_by_uuid with
  | none => simp [h1] at h
  | some dev =>
    simp only [h1] at h
    cases h2 : dev.cachedCharacteristics with
    | none => simp [h2] at h
    | some bysvc =>
      simp only [h2] at h
      cases h3 : lookupA (unpackUUID s) bysvc with
      | none => simp [h3] at h
      | some bychar =>
        simp only [h3] at h
        unfold updateChar
        simp only [h1, h2, h3, h]
        unfold charEntry
        simp only [lookupA_insertA_self]

theorem notify_true_of_charEntry (st : NobleState) (d s c : Str)
    (e : CharCacheEntry) (h : charEntry st d s c = some e) :
    notify st d s c true =
      Except.ok (updateChar st d s c
        (fun x => { x with valuechangedListeners := x.valuechangedListeners + 1 })) := by
  unfold notify
  rw [getCharacteristic_of_charEntry st d s c e h]
  rfl

theorem notifyOk_true_of_charEntry (st : NobleState) (d s c : Str)
    (e : CharCacheEntry) (h : charEntry st d s c = some e) :
    notifyOk st d s c true =
      updateChar st d s c
        (fun x => { x with valuechangedListeners := x.valuechangedListeners + 1 }) := by
  unfold notifyOk
  rw [notify_true_of_charEntry st d s c e h]

/-- C4 counterexample: two successive `notify(..., true)` calls on the same
cached characteristic leave *two* `"valuechanged"` listeners bound (the
enable branch has no removal guard), so one underlying value change is
forwarded as two `read(..., isNotification = true)` events, not one. -/
theorem claim_C4_counterexample :
    valuechangedListenerCount
      (notifyOk (notifyOk exState ['d'] ['s'] ['c'] true) ['d'] ['s'] ['c'] true)
      ['d'] ['s'] ['c'] = 2 ∧
    ¬valuechangedListenerCount
      (notifyOk (notifyOk exState ['d'] ['s'] ['c'] true) ['d'] ['s'] ['c'] true)
      ['d'] ['s'] ['c'] = 1 ∧
    fireValuechanged
      (notifyOk (notifyOk exState ['d'] ['s'] ['c'] true) ['d'] ['s'] ['c'] true)
      ['d'] ['s'] ['c'] [7] =
      [Event.read ['d'] ['s'] ['c'] [7] true, Event.read ['d'] ['s'] ['c'] [7] true] := by
  refine ⟨rfl, by decide, rfl⟩

/-- C4 as amended: each `notify(..., true)` call on a cached characteristic
binds one *additional* `"valuechanged"` listener (there is no idempotency
guard; only `notify(..., false)` removes listeners), so two successive
calls leave the initial count plus two, and a single underlying value
change is forwarded as one `read(..., isNotification = true)` event per
bound listener. -/
theorem claim_C4_amended (st : NobleState) (d s c : Str) (e : CharCacheEntry)
    (data : List Nat) (h : charEntry st d s c = some e) :
    valuechangedListenerCount
      (notifyOk (notifyOk st d s c true) d s c true) d s c =
      e.valuechangedListeners + 2 ∧
    fireValuechanged (notifyOk (notifyOk st d s c true) d s c true) d s c data =
      List.replicate (e.valuechangedListeners + 2) (Event.read d s c data true) := by
  have h1 : charEntry (notifyOk st d s c true) d s c =
      some ({ e with valuechangedListeners := e.valuechangedListeners + 1 }) := by
    rw [notifyOk_true_of_charEntry st d s c e h]
    exact charEntry_updateChar st d s c _ e h
  have h2 : charEntry (notifyOk (notifyOk st d s c true) d s c true) d s c =
      some ({ e with valuechangedListeners := e.valuechangedListeners + 1 + 1 }) := by
    rw [notifyOk_true_of_charEntry _ d s c _ h1]
    exact charEntry_updateChar _ d s c _ _ h1
  constructor
  · unfold valuechangedListenerCount
    rw [h2]
  · unfold fireValuechanged
    rw [h2]

theorem claim_C4_amended_witness :
    charEntry exState ['d'] ['s'] ['c'] = some newCharCacheEntry ∧
    valuechangedListenerCount
      (notifyOk (notifyOk exState ['d'] ['s'] ['c'] true) ['d'] ['s'] ['c'] true)
      ['d'] ['s'] ['c'] = newCharCacheEntry.valuechangedListeners + 2 ∧
    fireValuechanged
      (notifyOk (notifyOk exState ['d'] ['s'] ['c'] true) ['d'] ['s'] ['c'] true)
      ['d'] ['s'] ['c'] [7] =
      List.replicate (newCharCacheEntry.valuechangedListeners + 2)
        (Event.read ['d'] ['s'] ['c'] [7] true) := by
  have h := claim_C4_amended exState ['d'] ['s'] ['c'] newCharCacheEntry [7] (by decide)
  exact ⟨by decide, h.1, h.2⟩

/-! ## Claim C8: the discovery tick -/

/-- Despite iterating the *raw* `device.serviceUuids` indices while testing
the *packed* `device.advertisement.serviceUuids` entries, the filter test on
a snapshot built by `_getAdvertisementData` is equivalent to "the filter is
empty or the snapshot's (packed) service-UUID list intersects it", because
the two arrays have equal length whenever the raw one is present. -/
theorem isAdvertisingWantedCriteria_iff (filter : List Str) (t : TransportDeviceInfo) :
    _isAdvertisingWantedCriteria filter (_getAdvertisementData t) = true ↔
      (filter = [] ∨
        ∃ u ∈ (_getAdvertisementData t).advServiceUuids, u ∈ filter) := by
  by_cases hf : filter = []
  · simp [_isAdvertisingWantedCriteria, hf]
  · have hlen : ¬filter.length = 0 := by
      simpa [List.length_eq_zero] using hf
    have hraw : (_getAdvertisementData t).rawServiceUuids = t.serviceUUIDs := rfl
    unfold _isAdvertisingWantedCriteria
    rw [hraw]
    cases hS : t.serviceUUIDs with
    | none =>
      have hadv : (_getAdvertisementData t).advServiceUuids = [] := by
        unfold _getAdvertisementData
        rw [hS]
      simp [hf, hadv]
    | some l =>
      have hadv : (_getAdvertisementData t).advServiceUuids = l.map packUUID := by
        unfold _getAdvertisementData
        rw [hS]
      simp only [hlen, if_false, hadv]
      rw [List.any_eq_true]
      constructor
      · rintro ⟨i, hi, hp⟩
        rw [List.mem_range] at hi
        have hi' : i < (l.map packUUID).length := by simpa using hi
        rw [List.getElem?_eq_getElem hi'] at hp
        refine Or.inr ⟨(l.map packUUID)[i], List.getElem_mem hi', ?_⟩
        simpa using hp
      · rintro (h | ⟨u, hu, huf⟩)
        · exact absurd h hf
        · obtain ⟨i, hi, rfl⟩ := List.mem_iff_getElem.mp hu
          have hi2 : i < l.length := by simpa using hi
          refine ⟨i, List.mem_range.mpr hi2, ?_⟩
          rw [List.getElem?_eq_getElem hi]
          simpa using huf

theorem processContinuations_spec (ser : Str → Str) (filter : List Str)
    (fetch : Str → Option TransportDeviceInfo) (tf : Str → TransportDeviceInfo) :
    ∀ (l : List Str) (reg : List (Str × DeviceEntry)) (evs : List Event),
    (∀ a ∈ l, fetch a = some (tf a)) →
    (∀ a ∈ l, lookupA (ser a) reg = none) →
    (l.map ser).Nodup →
    (processContinuations ser filter fetch l (reg, evs)).2 =
      evs ++ (l.filter
          (fun a => _isAdvertisingWantedCriteria filter (_getAdvertisementData (tf a)))).map
        (fun a => discoverEvent (_getAdvertisementData (tf a))) ∧
    (∀ a ∈ l,
      lookupA (ser a) (processContinuations ser filter fetch l (reg, evs)).1 =
        some (tickEntry filter (tf a))) ∧
    (∀ k : Str, (∀ a ∈ l, k ≠ ser a) →
      lookupA k (processContinuations ser filter fetch l (reg, evs)).1 = lookupA k reg) := by
  intro l
  induction l with
  | nil =>
    intro reg evs _ _ _
    exact ⟨by simp [processContinuations], by simp, fun k _ => rfl⟩
  | cons a l ih =>
    intro reg evs hf hfresh hnd
    have hstep : processContinuations ser filter fetch (a :: l) (reg, evs) =
        processContinuations ser filter fetch l
          (tickContinuation filter (ser a) (_getAdvertisementData (tf a)) (reg, evs)) := by
      unfold processContinuations
      rw [List.foldl_cons, hf a (by simp)]
    have hcont : tickContinuation filter (ser a) (_getAdvertisementData (tf a)) (reg, evs) =
        (insertA (ser a) (tickEntry filter (tf a)) reg,
         evs ++ if _isAdvertisingWantedCriteria filter (_getAdvertisementData (tf a)) then
           [discoverEvent (_getAdvertisementData (tf a))] else []) := by
      unfold tickContinuation tickEntry
      by_cases hp : _isAdvertisingWantedCriteria filter (_getAdvertisementData (tf a))
      · simp [hp, hfresh a (by simp)]
      · simp [hp]
    have hne : ∀ b ∈ l, ser a ≠ ser b := by
      intro b hb heq
      have : ser a ∈ l.map ser := heq ▸ List.mem_map_of_mem ser hb
      exact (List.nodup_cons.mp hnd).1 this
    obtain ⟨e1, e2, e3⟩ :=
      ih (insertA (ser a) (tickEntry filter (tf a)) reg)
        (evs ++ if _isAdvertisingWantedCriteria filter (_getAdvertisementData (tf a)) then
           [discoverEvent (_getAdvertisementData (tf a))] else [])
        (fun b hb => hf b (List.mem_cons_of_mem a hb))
        (fun b hb => by
          rw [lookupA_insertA_ne _ _ _ _ (fun heq => hne b hb heq.symm)]
          exact hfresh b (List.mem_cons_of_mem a hb))
        (List.nodup_cons.mp hnd).2
    rw [hstep, hcont]
    refine ⟨?_, ?_, ?_⟩
    · rw [e1]
      by_cases hp : _isAdvertisingWantedCriteria filter (_getAdvertisementData (tf a)) <;>
        simp [hp]
    · intro b hb
      rcases List.mem_cons.mp hb with rfl | hb'
      · rw [e3 (ser b) (fun b' hb' => hne b' hb')]
        exact lookupA_insertA_self _ _ _
      · exact e2 b hb'
    · intro k hk
      rw [e3 k (fun b hb => hk b (List.mem_cons_of_mem a hb)),
        lookupA_insertA_ne _ _ _ _ (hk a (List.mem_cons_self a l))]

/-- C8: on a discovery tick whose listed addresses have pairwise distinct
serialized keys and whose fetches all succeed, exactly the fresh addresses
(those not yet registered) are processed; a `discover` event is emitted for
such an address exactly once, if and only if the filter is empty or the
fetched snapshot's service-UUID list intersects the filter (third
conjunct); and every fresh address — passing or failing — ends up
registered, a failing one with its live device handle dropped
(`tickEntry`). -/
theorem claim_C8_tick (ser : Str → Str) (filter : List Str)
    (tf : Str → TransportDeviceInfo) (addrs : List Str)
    (registry : List (Str × DeviceEntry))
    (hnd : (addrs.map ser).Nodup) :
    (_onScanningDurationElapsed ser filter (fun a => some (tf a)) addrs registry).2 =
      ((addrs.filter (fun a => (lookupA (ser a) registry).isNone)).filter
          (fun a => _isAdvertisingWantedCriteria filter (_getAdvertisementData (tf a)))).map
        (fun a => discoverEvent (_getAdvertisementData (tf a))) ∧
    (∀ a ∈ addrs.filter (fun a => (lookupA (ser a) registry).isNone),
      lookupA (ser a)
          (_onScanningDurationElapsed ser filter (fun a => some (tf a)) addrs registry).1 =
        some (tickEntry filter (tf a))) ∧
    (∀ a : Str, _isAdvertisingWantedCriteria filter (_getAdvertisementData (tf a)) = true ↔
      (filter = [] ∨ ∃ u ∈ (_getAdvertisementData (tf a)).advServiceUuids, u ∈ filter)) := by
  have hsub : ((addrs.filter (fun a => (lookupA (ser a) registry).isNone)).map ser).Sublist
      (addrs.map ser) := (List.filter_sublist addrs).map ser
  obtain ⟨e1, e2, _⟩ :=
    processContinuations_spec ser filter (fun a => some (tf a)) tf
      (addrs.filter (fun a => (lookupA (ser a) registry).isNone)) registry []
      (fun _ _ => rfl)
      (fun a ha => Option.eq_none_of_isNone (List.mem_filter.mp ha).2)
      (hnd.sublist hsub)
  refine ⟨?_, e2, fun a => isAdvertisingWantedCriteria_iff filter (tf a)⟩
  unfold _onScanningDurationElapsed
  rw [e1]
  rfl

theorem claim_C8_tick_witness :
    (([['a'], ['b'], ['c']] : List Str).map (fun a => a)).Nodup ∧
    (_onScanningDurationElapsed (fun a => a) [['s']] (fun a => some (exFetch a))
        [['a'], ['b'], ['c']] []).2 =
      [discoverEvent (_getAdvertisementData exTransportB)] ∧
    lookupA ['a'] (_onScanningDurationElapsed (fun a => a) [['s']]
        (fun a => some (exFetch a)) [['a'], ['b'], ['c']] []).1 =
      some (tickEntry [['s']] exTransportA) ∧
    lookupA ['b'] (_onScanningDurationElapsed (fun a => a) [['s']]
        (fun a => some (exFetch a)) [['a'], ['b'], ['c']] []).1 =
      some (tickEntry [['s']] exTransportB) ∧
    lookupA ['c'] (_onScanningDurationElapsed (fun a => a) [['s']]
        (fun a => some (exFetch a)) [['a'], ['b'], ['c']] []).1 =
      some (tickEntry [['s']] exTransportC) := by
  have h := claim_C8_tick (fun a => a) [['s']] exFetch [['a'], ['b'], ['c']] [] (by decide)
  refine ⟨by decide, ?_, ?_, ?_, ?_⟩
  · rw [h.1]
    rfl
  · exact h.2.1 ['a'] (by decide)
  · exact h.2.1 ['b'] (by decide)
  · exact h.2.1 ['c'] (by decide)

end BluezDbus
